import Mathlib

/-!
Verification development for the Openbridge MCP gateway's
authentication/token-exchange subsystem.

The definitions below are a shallow embedding of the Python sources:

* `src/auth/simple.py` — token cache, credential exchanger
  (`OpenbridgeAuth.get_jwt`, `get_jwt_async`, `_refresh`, `_refresh_async`,
  `_extract_token`, `_active_refresh_token`, `_CachedToken.is_valid`,
  `get_headers`);
* `src/server/tools/base.py` — header injector (`get_auth_headers`) and
  pagination guard (`safe_pagination_url`);
* `src/auth/authentication.py` — request middleware
  (`OpenbridgeAuthMiddleware.on_request`);
* `src/utils/http_client.py` — outbound header scrubbing/injection
  (`AuthenticatedClient._inject_headers`).

Machine conventions: timestamps and JWT claim values are rationals
(Python floats are used only for comparison/arithmetic here, never for
rounding-sensitive computation); Python exceptions are modelled with
`Except`; the network round trip performed by `requests.post` /
`httpx.AsyncClient.post` is abstracted as an `HttpResult` input value
(the response the transport produced, or the error it raised), so that
"number of network calls" can be counted explicitly.

Python's `urllib.parse.urlparse` / `urljoin` / `urlunparse` are standard
library collaborators, not repository code; they are modelled below to
the fidelity the claims need (scheme/netloc splitting, absolute-reference
resolution, netloc inheritance for same-scheme references, and a
simplified relative-path merge without dot-segment normalisation).
-/

set_option autoImplicit false

namespace Openbridge

/-! ## String helpers (Python `in`, `str.lower`, `str.strip`) -/

/-- Model of Python's substring test `pat in s`, on character lists:
true iff `pat` occurs contiguously in `l`. -/
def charsContain (pat : List Char) : List Char → Bool
  | [] => decide (pat = [])
  | c :: rest => pat.isPrefixOf (c :: rest) || charsContain pat rest

/-- Model of Python's substring test `pat in s` on strings. -/
def strContains (s pat : String) : Bool :=
  charsContain pat.data s.data

/-- Whitespace stripped by Python's `str.strip()` (ASCII subset; the
strings this subsystem strips are HTTP header values). -/
def isStripWS (c : Char) : Bool :=
  c = ' ' ∨ c = '\t' ∨ c = '\n' ∨ c = '\r' ∨ c = '\x0b' ∨ c = '\x0c'

/-- Model of Python's `str.strip()`: drop leading and trailing whitespace. -/
def pyStrip (s : String) : String :=
  String.mk (((s.data.dropWhile isStripWS).reverse.dropWhile isStripWS).reverse)

/-- Model of Python's `str.lower()` (ASCII subset; applied to header
names and URL netlocs). -/
def strLower (s : String) : String :=
  String.mk (s.data.map Char.toLower)

/-- Kernel-reducible `s.startswith(pre)` on the character lists. -/
def strBegins (s pre : String) : Bool :=
  pre.data.isPrefixOf s.data

/-- Kernel-reducible `s[n:]` (drop the first `n` characters). -/
def strDrop (s : String) (n : ℕ) : String :=
  String.mk (s.data.drop n)

/-! ## Model of `urllib.parse` (Python standard library) -/

/-- Parsed URL components as produced by `urllib.parse.urlparse`,
keeping everything after the netloc (path, query, fragment) in `rest`. -/
structure UrlParts where
  scheme : String
  netloc : String
  rest : String
  deriving Repr, DecidableEq

/-- Characters allowed in a URL scheme (`urllib.parse.scheme_chars`). -/
def isSchemeChar (c : Char) : Bool :=
  c.isAlphanum || c = '+' || c = '-' || c = '.'

/-- Split a character list at the first colon, returning the part before
and after it, or `none` when no colon occurs. -/
def splitAtColon : List Char → Option (List Char × List Char)
  | [] => none
  | c :: cs =>
    if c = ':' then some ([], cs)
    else
      match splitAtColon cs with
      | some (a, b) => some (c :: a, b)
      | none => none

/-- Model of `urllib.parse.urlparse` restricted to the components the
repository consults: the (lowercased) scheme when a valid nonempty scheme
precedes the first colon, the netloc when the remainder starts with `//`
(running to the next `/`, `?` or `#`), and the uninterpreted remainder. -/
def urlparse (s : String) : UrlParts :=
  let (schemeChars, afterScheme) :=
    match splitAtColon s.data with
    | some (a, b) =>
      if a ≠ [] ∧ a.all isSchemeChar then (a.map Char.toLower, b) else ([], s.data)
    | none => ([], s.data)
  let (netlocChars, restChars) :=
    match afterScheme with
    | '/' :: '/' :: r =>
      (r.takeWhile (fun c => c ≠ '/' ∧ c ≠ '?' ∧ c ≠ '#'),
       r.dropWhile (fun c => c ≠ '/' ∧ c ≠ '?' ∧ c ≠ '#'))
    | r => ([], r)
  ⟨String.mk schemeChars, String.mk netlocChars, String.mk restChars⟩

/-- Model of `urllib.parse.urlunparse` on the three components kept by
`urlparse`: reattaches `scheme:` and `//netloc`, inserting a leading
slash before a relative remainder when a netloc is present. -/
def urlunparse (u : UrlParts) : String :=
  let rest :=
    if u.netloc ≠ "" ∧ u.rest ≠ "" ∧ ¬ strBegins u.rest "/" then "/" ++ u.rest
    else u.rest
  (if u.scheme ≠ "" then u.scheme ++ ":" else "") ++
    (if u.netloc ≠ "" then "//" ++ u.netloc else "") ++ rest

/-- Directory part of a path-and-query remainder: everything up to and
including the last `/`, used by the simplified relative merge. -/
def restDir (rest : String) : String :=
  String.mk (rest.data.reverse.dropWhile (fun c => c ≠ '/')).reverse

/-- Model of `urllib.parse.urljoin`. Faithful for: empty base or empty
reference, references whose scheme differs from the base's (returned
unchanged), references carrying their own netloc, and netloc inheritance
for same-scheme references. The relative-path merge is simplified (no
dot-segment normalisation), which no claim below depends on. -/
def urljoin (base url : String) : String :=
  if base = "" then url
  else if url = "" then base
  else
    let b := urlparse base
    let u := urlparse url
    let scheme := if u.scheme = "" then b.scheme else u.scheme
    if scheme ≠ b.scheme then url
    else if u.netloc ≠ "" then urlunparse ⟨scheme, u.netloc, u.rest⟩
    else if u.rest = "" then urlunparse ⟨scheme, b.netloc, b.rest⟩
    else if strBegins u.rest "/" then urlunparse ⟨scheme, b.netloc, u.rest⟩
    else urlunparse ⟨scheme, b.netloc, restDir b.rest ++ u.rest⟩

/-! ## Embedding of `src/auth/simple.py` -/

/-- Exception classes relevant to this subsystem. The source
(`src/auth/simple.py`) defines exactly one class, `AuthenticationError`,
carrying a message. The constructor `configurationError` is
Modelled from the spec: the spec's error taxonomy names a
`ConfigurationError` class for the no-credential case; no class of that
name exists anywhere in the repository's sources, so the constructor is
present only so the spec's classification can be stated and compared. -/
inductive OBError where
  | authenticationError (msg : String)
  | configurationError (msg : String)
  deriving Repr, DecidableEq

/-- Truth of the claim "this raised error is a `ConfigurationError`". -/
def isConfigurationError {α : Type} : Except OBError α → Bool
  | .error (.configurationError _) => true
  | _ => false

/-- Cached token slot (`_CachedToken`): the token string and the expiry
timestamp recorded for it. -/
structure CachedToken where
  token : String
  expires : ℚ
  deriving Repr, DecidableEq

/-- Embeds `_CachedToken.is_valid`:
`time.time() < (self.expires - 300)` — a five-minute safety buffer. -/
def is_valid (c : CachedToken) (now : ℚ) : Bool :=
  decide (now < c.expires - 300)

/-- Process state of an `OpenbridgeAuth` instance: the environment-sourced
refresh credential (`os.getenv` returns the value or `None`), the auth
base URL, and the single-slot token cache. -/
structure AuthState where
  refresh_token : Option String
  auth_base_url : String
  cache : Option CachedToken
  deriving Repr, DecidableEq

/-- Endpoint path `self._auth_path = f"\x7bself.auth_base_url\x7d/auth/api/ref"`. -/
def auth_path (st : AuthState) : String :=
  st.auth_base_url ++ "/auth/api/ref"

/-- Embeds `OpenbridgeAuth._active_refresh_token`:
`token = override or self.refresh_token; if not token: raise`.
Python truthiness: an empty string and `None` are both falsy. -/
def active_refresh_token (st : AuthState) (override : Option String) :
    Except OBError String :=
  let token : Option String :=
    match override with
    | some s => if s ≠ "" then some s else st.refresh_token
    | none => st.refresh_token
  match token with
  | some s =>
    if s ≠ "" then .ok s
    else .error (.authenticationError
      "OPENBRIDGE_REFRESH_TOKEN not available for JWT generation")
  | none => .error (.authenticationError
      "OPENBRIDGE_REFRESH_TOKEN not available for JWT generation")

/-- Claims of the exchanged JWT as decoded by
`jwt.decode(jwt_token, options=...)` with signature verification off:
the fields the code consults, as optional numeric values. -/
structure JwtClaims where
  expires_at : Option ℚ
  exp : Option ℚ
  deriving Repr, DecidableEq

/-- Python truthiness filter for an optional numeric claim value:
`0` and absence are falsy, so `x or y` skips them. -/
def truthyNum : Option ℚ → Option ℚ
  | some v => if v ≠ 0 then some v else none
  | none => none

/-- Parsed JSON body of a 2xx exchange response, together with the claims
decoded from the token it carries. `token` is
`payload["data"]["attributes"]["token"]` when that nested path exists
(`KeyError` otherwise, modelled as `none`); `claims` is what `jwt.decode`
yields on that token. -/
structure ExchangePayload where
  token : Option String
  claims : JwtClaims
  deriving Repr, DecidableEq

/-- Outcome of `_extract_token`: the value returned or error raised, and
the cache slot afterwards. -/
structure ExtractResult where
  value : Except OBError String
  cache : Option CachedToken
  deriving Repr

/-- Embeds `OpenbridgeAuth._extract_token`. Reads the nested token field
(`AuthenticationError` on `KeyError`), decodes the claims, computes
`expires_at = float(decoded.get("expires_at") or decoded.get("exp") or
(time.time() + 3600))` with Python `or` semantics (falsy values skipped),
and replaces the cache slot exactly when `cache` is set. -/
def extract_token (now : ℚ) (payload : ExchangePayload) (cache : Bool)
    (oldCache : Option CachedToken) : ExtractResult :=
  match payload.token with
  | none =>
    ⟨.error (.authenticationError
      "Openbridge auth response did not include a token"), oldCache⟩
  | some jwt_token =>
    let expires_at : ℚ :=
      ((truthyNum payload.claims.expires_at).getD
        ((truthyNum payload.claims.exp).getD (now + 3600)))
    ⟨.ok jwt_token,
     if cache then some ⟨jwt_token, expires_at⟩ else oldCache⟩

/-- Result of the HTTP round trip performed by `requests.post`
(synchronous path) or `httpx.AsyncClient.post` (asynchronous path),
as consumed by `_refresh` / `_refresh_async`:
either the transport raised, or `raise_for_status()` / `.json()` raised
(with the exception's text), or a parsed 2xx JSON body was obtained. -/
inductive HttpResult where
  | transportError (msg : String)
  | statusOrJsonError (msg : String)
  | ok (payload : ExchangePayload)
  deriving Repr, DecidableEq

/-- Embeds `OpenbridgeAuth._refresh` (blocking HTTP exchange): wraps a
transport failure as `AuthenticationError "Openbridge auth request
failed"`, a status/parse failure as `AuthenticationError "Failed to
convert refresh token to JWT: <exc>"`, and otherwise extracts the token. -/
def refresh (now : ℚ) (resp : HttpResult) (cache : Bool)
    (oldCache : Option CachedToken) : ExtractResult :=
  match resp with
  | .transportError _ =>
    ⟨.error (.authenticationError "Openbridge auth request failed"), oldCache⟩
  | .statusOrJsonError m =>
    ⟨.error (.authenticationError
      ("Failed to convert refresh token to JWT: " ++ m)), oldCache⟩
  | .ok payload => extract_token now payload cache oldCache

/-- Embeds `OpenbridgeAuth._refresh_async`: identical control flow to
`_refresh`, with the transport swapped for the non-blocking client. -/
def refresh_async (now : ℚ) (resp : HttpResult) (cache : Bool)
    (oldCache : Option CachedToken) : ExtractResult :=
  match resp with
  | .transportError _ =>
    ⟨.error (.authenticationError "Openbridge auth request failed"), oldCache⟩
  | .statusOrJsonError m =>
    ⟨.error (.authenticationError
      ("Failed to convert refresh token to JWT: " ++ m)), oldCache⟩
  | .ok payload => extract_token now payload cache oldCache

/-- Observable outcome of a `get_jwt` / `get_jwt_async` call: the value
returned or error raised, the cache slot afterwards, and how many
network exchange calls were performed. -/
structure JwtResult where
  value : Except OBError String
  cache : Option CachedToken
  exchangeCalls : ℕ
  deriving Repr

/-- Embeds `OpenbridgeAuth.get_jwt` (synchronous path): resolve the
credential, serve a valid cached token without a network call, otherwise
exchange with caching on. -/
def get_jwt (st : AuthState) (now : ℚ) (resp : HttpResult) : JwtResult :=
  match active_refresh_token st none with
  | .error e => ⟨.error e, st.cache, 0⟩
  | .ok _token =>
    match st.cache with
    | some c =>
      if is_valid c now then ⟨.ok c.token, st.cache, 0⟩
      else
        let r := refresh now resp true st.cache
        ⟨r.value, r.cache, 1⟩
    | none =>
      let r := refresh now resp true st.cache
      ⟨r.value, r.cache, 1⟩

/-- Embeds `OpenbridgeAuth.get_jwt_async`: same resolution, but the cache
is consulted and written only when no override `refresh_token` argument
was supplied (`use_cache = refresh_token is None`). -/
def get_jwt_async (st : AuthState) (now : ℚ) (resp : HttpResult)
    (refreshTokenArg : Option String) : JwtResult :=
  match active_refresh_token st refreshTokenArg with
  | .error e => ⟨.error e, st.cache, 0⟩
  | .ok _token =>
    let use_cache := refreshTokenArg.isNone
    match st.cache, use_cache with
    | some c, true =>
      if is_valid c now then ⟨.ok c.token, st.cache, 0⟩
      else
        let r := refresh_async now resp use_cache st.cache
        ⟨r.value, r.cache, 1⟩
    | _, _ =>
      let r := refresh_async now resp use_cache st.cache
      ⟨r.value, r.cache, 1⟩

/-- Header mapping: outcome of a headers-producing call. -/
structure HeadersResult where
  value : Except OBError (List (String × String))
  cache : Option CachedToken
  exchangeCalls : ℕ
  deriving Repr

/-- Embeds `OpenbridgeAuth.get_headers`:
`\x7b"Authorization": f"Bearer \x7bself.get_jwt()\x7d"\x7d`. -/
def get_headers (st : AuthState) (now : ℚ) (resp : HttpResult) :
    HeadersResult :=
  let r := get_jwt st now resp
  ⟨r.value.map (fun t => [("Authorization", "Bearer " ++ t)]),
   r.cache, r.exchangeCalls⟩

/-! ## Embedding of `src/server/tools/base.py` -/

/-- Detailed error message built by `get_auth_headers` when the exchange
failed for a reason other than a missing credential. -/
def conversionFailureMsg (st : AuthState) : String :=
  "Failed to convert OPENBRIDGE_REFRESH_TOKEN to JWT.\n\n" ++
  "Possible causes:\n" ++
  "1. Token format incorrect (expected: xxx:yyy)\n" ++
  "2. OpenBridge API unreachable\n" ++
  "3. Token expired or revoked\n\n" ++
  "Action: Verify OPENBRIDGE_REFRESH_TOKEN and check connectivity to " ++
  auth_path st

/-- Embeds `get_auth_headers` (`src/server/tools/base.py`). `ctxToken` is
what `_get_context_jwt` yields (the access token primed on the request
context, if any); a truthy context token short-circuits everything.
`get_auth()` itself only reads the environment and cannot raise, so its
`except AuthenticationError` arm is dead. An `AuthenticationError` from
`auth.get_headers()` whose text contains `"not available"` is treated as
"no credential configured" and yields empty headers; any other
`AuthenticationError` is re-raised with the detailed diagnostic message. -/
def get_auth_headers (ctxToken : Option String) (st : AuthState) (now : ℚ)
    (resp : HttpResult) : HeadersResult :=
  match ctxToken with
  | some t =>
    if t ≠ "" then ⟨.ok [("Authorization", "Bearer " ++ t)], st.cache, 0⟩
    else fallthrough st now resp
  | none => fallthrough st now resp
where
  /-- Server-side path of `get_auth_headers`: delegate to
  `auth.get_headers()` and classify any `AuthenticationError`. -/
  fallthrough (st : AuthState) (now : ℚ) (resp : HttpResult) : HeadersResult :=
    let r := get_headers st now resp
    match r.value with
    | .ok hs => ⟨.ok hs, r.cache, r.exchangeCalls⟩
    | .error (.authenticationError msg) =>
      if strContains msg "not available" then ⟨.ok [], r.cache, r.exchangeCalls⟩
      else ⟨.error (.authenticationError (conversionFailureMsg st)),
            r.cache, r.exchangeCalls⟩
    | .error e => ⟨.error e, r.cache, r.exchangeCalls⟩

/-! ## Embedding of `src/auth/authentication.py` (middleware) -/

/-- Caller-supplied bearer extraction in
`OpenbridgeAuthMiddleware.on_request`:
`auth_header = http_request.headers.get("authorization", "")` followed by
`if auth_header.startswith("Bearer "): jwt_token = auth_header[7:].strip()`.
Gives the extracted token, which may be empty (and then falsy). -/
def bearerFromHeader (authHeader : String) : Option String :=
  if strBegins authHeader "Bearer " then some (pyStrip (strDrop authHeader 7))
  else none

/-- Outcome of the middleware's token-priming phase: the JWT shared with
the request context (if any), the cache afterwards, and how many
exchange calls were made. -/
structure MiddlewareResult where
  contextToken : Option String
  cache : Option CachedToken
  exchangeCalls : ℕ
  deriving Repr

/-- Embeds the token-resolution logic of
`OpenbridgeAuthMiddleware.on_request`: priority 1 is a truthy
client-supplied bearer value; priority 2 falls back to the server's
`get_jwt()`, swallowing every exception; the resulting token is shared
with the context only when truthy. -/
def on_request (authHeader : String) (st : AuthState) (now : ℚ)
    (resp : HttpResult) : MiddlewareResult :=
  let clientToken : Option String :=
    match bearerFromHeader authHeader with
    | some t => if t ≠ "" then some t else none
    | none => none
  match clientToken with
  | some t => ⟨some t, st.cache, 0⟩
  | none =>
    let r := get_jwt st now resp
    match r.value with
    | .ok tk => ⟨if tk ≠ "" then some tk else none, r.cache, r.exchangeCalls⟩
    | .error _ => ⟨none, r.cache, r.exchangeCalls⟩

/-! ## Embedding of `src/utils/http_client.py` (`_inject_headers`) -/

/-- Forbidden header-name substrings (`AuthenticatedClient._FORBID_SUBSTRS`). -/
def FORBID_SUBSTRS : List String := ["authorization"]

/-- Step 2 of `_inject_headers`: delete every header whose (lowercased)
name contains one of the forbidden substrings. -/
def scrubHeaders (hs : List (String × String)) : List (String × String) :=
  hs.filter (fun kv => !(FORBID_SUBSTRS.any (fun s => strContains (strLower kv.1) s)))

/-- Case-insensitive membership test on header names, modelling
`key in request.headers` for httpx's case-insensitive header multidict. -/
def headerHas (hs : List (String × String)) (k : String) : Bool :=
  hs.any (fun kv => strLower kv.1 = strLower k)

/-- Case-insensitive assignment `request.headers[k] = v` on the header
model: drop existing entries for the name, append the new one. -/
def headerSet (hs : List (String × String)) (k v : String) :
    List (String × String) :=
  hs.filter (fun kv => strLower kv.1 ≠ strLower k) ++ [(k, v)]

/-- Exact-key dictionary lookup `d.get(k, "")` on a plain Python dict. -/
def dictGetD (hs : List (String × String)) (k dflt : String) : String :=
  ((hs.find? (fun kv => kv.1 = k)).map (fun kv => kv.2)).getD dflt

/-- Result of `self.media_registry.resolve(method, url)` when a media
registry is attached: the negotiated content type and the acceptable
response media types. -/
structure MediaInfo where
  contentType : Option String
  accepts : List String
  deriving Repr

/-- Step 1 of `_inject_headers` (media negotiation): set `Content-Type`
on non-GET requests when negotiated, and a preferred `Accept` (the first
`application/vnd.`-prefixed entry, else the first) when none is present. -/
def mediaNegotiate (media : Option MediaInfo) (method : String)
    (hs : List (String × String)) : List (String × String) :=
  match media with
  | none => hs
  | some m =>
    let h1 :=
      match m.contentType with
      | some ct => if strLower method ≠ "get" then headerSet hs "Content-Type" ct else hs
      | none => hs
    if m.accepts ≠ [] ∧ ¬ headerHas h1 "Accept" then
      let preferred :=
        ((m.accepts.find? (fun a => strBegins a "application/vnd.")).getD
          (m.accepts.headD ""))
      headerSet h1 "Accept" preferred
    else h1

/-- Embeds `AuthenticatedClient._inject_headers`: media negotiation, then
scrubbing of polluted auth headers, then injection of the auth manager's
`Authorization` value whenever the lowercased netloc of the request URL
contains the substring `"openbridge.io"`, then a default `Accept`.
`amHeaders` is what `await self.auth_manager.get_headers()` returns. -/
def inject_headers (media : Option MediaInfo) (method url : String)
    (headers0 : List (String × String)) (amHeaders : List (String × String)) :
    List (String × String) :=
  let h1 := mediaNegotiate media method headers0
  let h2 := scrubHeaders h1
  let uHost := strLower (urlparse url).netloc
  let h3 :=
    if strContains uHost "openbridge.io" then
      headerSet h2 "Authorization" (dictGetD amHeaders "Authorization" "")
    else h2
  if ¬ headerHas h3 "Accept" then headerSet h3 "Accept" "application/json" else h3

/-- Modelled from the spec: the claim's notion of a host belonging to the
platform's domain (the apex `openbridge.io` or one of its subdomains),
used only to compare the spec's wording against the code's substring
check. -/
def specPlatformDomain (host : String) : Bool :=
  host = "openbridge.io" || ".openbridge.io".data.isSuffixOf host.data

/-! ## Embedding of the pagination guard (`src/server/tools/base.py`) -/

/-- Modelled from the spec: `validate_url` lives in
`src/utils/security.py`, which is not among the provided sources; per the
spec it rejects (raises `ValidationError`) exactly when the URL's scheme
is not in the allow-list. Modelled as a boolean acceptance test. -/
def validate_url (url : String) (allowedSchemes : List String) : Bool :=
  allowedSchemes.contains (urlparse url).scheme

/-- Embeds `safe_pagination_url`: reject a falsy candidate, resolve it
against the base, reject a disallowed scheme (https only), reject a host
mismatch when both the resolved and the expected netloc are nonempty,
otherwise return the resolved URL. -/
def safe_pagination_url (next_url : Option String) (base_url : String) :
    Option String :=
  match next_url with
  | none => none
  | some nu =>
    if nu = "" then none
    else
      let candidate := urljoin base_url nu
      if ¬ validate_url candidate ["https"] then none
      else
        let expected_host := (urlparse base_url).netloc
        let actual_host := (urlparse candidate).netloc
        if actual_host ≠ "" ∧ expected_host ≠ "" ∧ actual_host ≠ expected_host
        then none
        else some candidate

/-! ## Embedding of `src/auth/providers/openbridge.py` (expiry extraction) -/

/-- Token record stored by `OpenBridgeProvider._refresh_jwt_token` on a
successful exchange: the token string and the expiry it records (the
source's `Token(access_token=..., expires_at=...)`, restricted to the
fields this claim consults). -/
structure ProviderToken where
  access_token : String
  expires_at : ℚ
  deriving Repr, DecidableEq

/-- Embeds the response-processing tail of
`OpenBridgeProvider._refresh_jwt_token`: the nested token field is read
with `.get` chaining and a falsy value (missing or empty) raises
`ValueError("No token in OpenBridge response")`; the recorded expiry is
`payload.get("expires_at", 0)` from the decoded claims — plain presence,
so a present zero stays zero, with no `exp` fallback and no one-hour
default (absence yields epoch 0). -/
def refresh_jwt_token (payload : ExchangePayload) :
    Except String ProviderToken :=
  match payload.token with
  | none => .error "No token in OpenBridge response"
  | some tk =>
    if tk = "" then .error "No token in OpenBridge response"
    else .ok ⟨tk, payload.claims.expires_at.getD 0⟩

/-! ## Spec-side reference definitions for refinement comparisons -/

/-- Modelled from the spec: the expiry selection rule as the spec words
it — "the custom `expires_at` claim if present, else the standard `exp`
claim, else one hour from now" — with plain presence instead of Python
truthiness. -/
def specExpiry (claims : JwtClaims) (now : ℚ) : ℚ :=
  claims.expires_at.getD (claims.exp.getD (now + 3600))

/-- Failure shapes of an exchange round trip, as listed by the claim:
transport error, failing HTTP status or unparseable body, or a parsed
body missing the token field. -/
def exchangeFailed : HttpResult → Bool
  | .transportError _ => true
  | .statusOrJsonError _ => true
  | .ok p => p.token.isNone

/-- Header entries the claim is about: name contains "authorization"
case-insensitively. -/
def authNamed (kv : String × String) : Bool :=
  strContains (strLower kv.1) "authorization"

/-! ## Shared helper lemmas -/

theorem charsContain_append_right (pat l : List Char) :
    charsContain pat (l ++ pat) = true := by
  induction l with
  | nil =>
    cases pat with
    | nil => simp [charsContain]
    | cons c cs =>
      simp only [List.nil_append, charsContain, Bool.or_eq_true]
      left
      rw [ List.isPrefixOf_iff_prefix]
  | cons c rest ih =>
    simp [charsContain, ih]

theorem strContains_append_right (a b : String) :
    strContains (a ++ b) b = true := by
  have h : (a ++ b).data = a.data ++ b.data := by
    simp [String.data_append]
  simp [strContains, h, charsContain_append_right]

theorem charsContain_nil_pat (l : List Char) :
    charsContain [] l = true := by
  cases l <;> simp [charsContain]

theorem charsContain_append_left (pat l r : List Char)
    (h : charsContain pat l = true) : charsContain pat (l ++ r) = true := by
  induction l with
  | nil =>
    simp [charsContain] at h
    subst h
    simpa using charsContain_nil_pat r
  | cons c rest ih =>
    simp only [charsContain, Bool.or_eq_true] at h ⊢
    rcases h with h | h
    · left
      rw [ List.isPrefixOf_iff_prefix] at h ⊢
      exact h.trans (List.prefix_append _ _)
    · right
      exact ih h

theorem strContains_append_left (a b pat : String)
    (h : strContains a pat = true) : strContains (a ++ b) pat = true := by
  have hd : (a ++ b).data = a.data ++ b.data := by simp [String.data_append]
  simpa [strContains, hd] using
    charsContain_append_left pat.data a.data b.data h

theorem scrubHeaders_filter_nil (hs : List (String × String)) :
    (scrubHeaders hs).filter authNamed = [] := by
  rw [List.filter_eq_nil_iff]
  intro kv hkv
  simp only [scrubHeaders, List.mem_filter, FORBID_SUBSTRS, List.any_cons,
    List.any_nil, Bool.or_false, Bool.not_eq_true'] at hkv
  simp [authNamed, hkv.2]

theorem filter_authNamed_headerSet (hs : List (String × String)) (k v : String) :
    (headerSet hs k v).filter authNamed =
      ((hs.filter authNamed).filter (fun kv => strLower kv.1 ≠ strLower k)) ++
        (if authNamed (k, v) then [(k, v)] else []) := by
  unfold headerSet
  rw [List.filter_append, List.filter_comm, List.filter_singleton]
  cases hkv : authNamed (k, v) <;> simp [hkv]

theorem refresh_eq_refresh_async (now : ℚ) (resp : HttpResult) (cache : Bool)
    (oldCache : Option CachedToken) :
    refresh now resp cache oldCache = refresh_async now resp cache oldCache := by
  cases resp <;> rfl

theorem active_refresh_token_cache_irrel (st : AuthState)
    (c : Option CachedToken) (o : Option String) :
    active_refresh_token { st with cache := c } o = active_refresh_token st o := rfl

theorem refresh_async_nocache_cache (now : ℚ) (resp : HttpResult)
    (oldCache : Option CachedToken) :
    (refresh_async now resp false oldCache).cache = oldCache := by
  cases resp with
  | transportError m => rfl
  | statusOrJsonError m => rfl
  | ok p =>
    cases hp : p.token <;> simp [refresh_async, extract_token, hp]

theorem refresh_async_nocache_value (now : ℚ) (resp : HttpResult)
    (oc₁ oc₂ : Option CachedToken) :
    (refresh_async now resp false oc₁).value = (refresh_async now resp false oc₂).value := by
  cases resp with
  | transportError m => rfl
  | statusOrJsonError m => rfl
  | ok p =>
    cases hp : p.token <;> simp [refresh_async, extract_token, hp]

/-! ## Claim theorems -/

/-- Claim C10: the synchronous token getter `get_jwt` and the
asynchronous token getter `get_jwt_async` called without an override
credential have identical semantics — from the same state, given the
same exchange response, they return the same value, produce the same
cache entry, and perform the same number of exchange calls. -/
theorem sync_async_getters_equivalent (st : AuthState) (now : ℚ)
    (resp : HttpResult) :
    get_jwt st now resp = get_jwt_async st now resp none := by
  unfold get_jwt get_jwt_async
  cases h : active_refresh_token st none with
  | error e => rfl
  | ok tok =>
    cases hc : st.cache with
    | none => simp [refresh_eq_refresh_async]
    | some c =>
      by_cases hv : is_valid c now <;> simp [hv, refresh_eq_refresh_async]

/-- Claim C8: calling `get_jwt_async` with a caller-supplied override
`refresh_token` leaves the shared token cache unchanged, and its result
does not depend on the cache contents (the cached entry is not used and
the exchanged token is not stored). -/
theorem override_does_not_touch_cache (st : AuthState) (now : ℚ)
    (resp : HttpResult) (o : String) :
    (get_jwt_async st now resp (some o)).cache = st.cache ∧
    ∀ c₁ c₂ : Option CachedToken,
      (get_jwt_async { st with cache := c₁ } now resp (some o)).value =
        (get_jwt_async { st with cache := c₂ } now resp (some o)).value := by
  have key : ∀ c : Option CachedToken,
      get_jwt_async { st with cache := c } now resp (some o) =
        match active_refresh_token st (some o) with
        | .error e => ⟨.error e, c, 0⟩
        | .ok _ =>
          ⟨(refresh_async now resp false c).value,
           (refresh_async now resp false c).cache, 1⟩ := by
    intro c
    unfold get_jwt_async
    rw [active_refresh_token_cache_irrel]
    cases active_refresh_token st (some o) with
    | error e => rfl
    | ok tok => cases c <;> rfl
  constructor
  · have h := key st.cache
    simp only [show { st with cache := st.cache } = st from rfl] at h
    rw [h]
    cases active_refresh_token st (some o) with
    | error e => rfl
    | ok tok => simp [refresh_async_nocache_cache]
  · intro c₁ c₂
    rw [key c₁, key c₂]
    cases active_refresh_token st (some o) with
    | error e => rfl
    | ok tok => simp [refresh_async_nocache_value now resp c₁ c₂]

/-- Claim C9, counterexample: with no credential resolvable, the error
`get_jwt` raises is not a `ConfigurationError` — the code defines no such
class and raises `AuthenticationError` with the "not available" message. -/
theorem no_credential_not_configuration_error :
    isConfigurationError
      (get_jwt ⟨none, "https://authentication.api.openbridge.io", none⟩ 0
        (.transportError "unused")).value = false ∧
    (get_jwt ⟨none, "https://authentication.api.openbridge.io", none⟩ 0
      (.transportError "unused")).value =
      .error (.authenticationError
        "OPENBRIDGE_REFRESH_TOKEN not available for JWT generation") := by
  exact ⟨rfl, rfl⟩

/-- Claim C9, amended: when no credential is resolvable (no override and
the environment-sourced refresh credential is absent or empty), `get_jwt`
and `get_jwt_async` raise `AuthenticationError` (not a distinct
`ConfigurationError` class) whose message contains "not available", and
the header injector recovers locally by returning empty headers with no
exchange call. -/
theorem no_credential_recovered_as_empty_headers (st : AuthState)
    (now : ℚ) (resp : HttpResult)
    (hrt : st.refresh_token = none ∨ st.refresh_token = some "") :
    (get_jwt st now resp).value =
      .error (.authenticationError
        "OPENBRIDGE_REFRESH_TOKEN not available for JWT generation") ∧
    (get_jwt_async st now resp none).value =
      .error (.authenticationError
        "OPENBRIDGE_REFRESH_TOKEN not available for JWT generation") ∧
    strContains "OPENBRIDGE_REFRESH_TOKEN not available for JWT generation"
      "not available" = true ∧
    get_auth_headers none st now resp = ⟨.ok [], st.cache, 0⟩ := by
  have hart : active_refresh_token st none =
      .error (.authenticationError
        "OPENBRIDGE_REFRESH_TOKEN not available for JWT generation") := by
    rcases hrt with h | h <;> simp [active_refresh_token, h]
  have hjwt : get_jwt st now resp =
      ⟨.error (.authenticationError
        "OPENBRIDGE_REFRESH_TOKEN not available for JWT generation"),
       st.cache, 0⟩ := by
    unfold get_jwt
    rw [hart]
  refine ⟨by rw [hjwt], ?_, rfl, ?_⟩
  · unfold get_jwt_async
    rw [hart]
  · unfold get_auth_headers get_auth_headers.fallthrough get_headers
    rw [hjwt]
    rfl

/-- Claim C9, witness for the amended theorem at a concrete state. -/
theorem no_credential_recovered_as_empty_headers_witness :
    (get_jwt ⟨none, "https://authentication.api.openbridge.io", none⟩ 5
        (.transportError "conn refused")).value =
      .error (.authenticationError
        "OPENBRIDGE_REFRESH_TOKEN not available for JWT generation") ∧
    (get_jwt_async ⟨none, "https://authentication.api.openbridge.io", none⟩ 5
        (.transportError "conn refused") none).value =
      .error (.authenticationError
        "OPENBRIDGE_REFRESH_TOKEN not available for JWT generation") ∧
    strContains "OPENBRIDGE_REFRESH_TOKEN not available for JWT generation"
      "not available" = true ∧
    get_auth_headers none
        ⟨none, "https://authentication.api.openbridge.io", none⟩ 5
        (.transportError "conn refused") = ⟨.ok [], none, 0⟩ :=
  no_credential_recovered_as_empty_headers
    ⟨none, "https://authentication.api.openbridge.io", none⟩ 5
    (.transportError "conn refused") (Or.inl rfl)

/-- Claim C3: with no caller-supplied bearer credential in the context
(absent or empty) and no configured refresh credential (absent or empty),
`get_auth_headers` returns the empty header mapping without raising and
without performing any exchange call. -/
theorem no_credentials_give_empty_headers (ctxToken : Option String)
    (st : AuthState) (now : ℚ) (resp : HttpResult)
    (hctx : ctxToken = none ∨ ctxToken = some "")
    (hrt : st.refresh_token = none ∨ st.refresh_token = some "") :
    get_auth_headers ctxToken st now resp = ⟨.ok [], st.cache, 0⟩ := by
  have hmain := (no_credential_recovered_as_empty_headers st now resp hrt).2.2.2
  rcases hctx with h | h <;> subst h
  · exact hmain
  · unfold get_auth_headers at hmain ⊢
    simpa using hmain

/-- Claim C3, witness at a concrete state. -/
theorem no_credentials_give_empty_headers_witness :
    get_auth_headers (some "")
      ⟨none, "https://authentication.api.openbridge.io", none⟩ 7
      (.transportError "unreachable") = ⟨.ok [], none, 0⟩ :=
  no_credentials_give_empty_headers (some "")
    ⟨none, "https://authentication.api.openbridge.io", none⟩ 7
    (.transportError "unreachable") (Or.inr rfl) (Or.inl rfl)

/-- Claim C1: when the inbound request carries an Authorization header
with the literal `Bearer ` value and a nonempty credential, the
middleware shares exactly the caller's (stripped) credential with the
request context, performing no exchange call and leaving the cache
untouched; and `get_auth_headers` on such a context returns
`Authorization: Bearer <caller credential>` with no exchange and with
the cache passed through unchanged, independently of its contents. -/
theorem caller_bearer_used_directly (authHeader t : String)
    (st : AuthState) (now : ℚ) (resp : HttpResult)
    (hextract : bearerFromHeader authHeader = some t) (ht : t ≠ "") :
    on_request authHeader st now resp = ⟨some t, st.cache, 0⟩ ∧
    get_auth_headers (some t) st now resp =
      ⟨.ok [("Authorization", "Bearer " ++ t)], st.cache, 0⟩ := by
  constructor
  · unfold on_request
    rw [hextract]
    simp [ht]
  · unfold get_auth_headers
    simp [ht]

/-- Claim C1, witness: a concrete caller-supplied bearer token is passed
through verbatim even though the configured exchange would fail. -/
theorem caller_bearer_used_directly_witness :
    on_request "Bearer caller-jwt"
        ⟨some "abc:def", "https://authentication.api.openbridge.io",
         some ⟨"cached", 99999⟩⟩ 0 (.transportError "would fail") =
      ⟨some "caller-jwt", some ⟨"cached", 99999⟩, 0⟩ ∧
    get_auth_headers (some "caller-jwt")
        ⟨some "abc:def", "https://authentication.api.openbridge.io",
         some ⟨"cached", 99999⟩⟩ 0 (.transportError "would fail") =
      ⟨.ok [("Authorization", "Bearer caller-jwt")],
       some ⟨"cached", 99999⟩, 0⟩ :=
  caller_bearer_used_directly "Bearer caller-jwt" "caller-jwt"
    ⟨some "abc:def", "https://authentication.api.openbridge.io",
     some ⟨"cached", 99999⟩⟩ 0 (.transportError "would fail")
    rfl (by decide)

/-- Claim C6: after a successful exchange populated the cache, any
`get_jwt` call made at a time strictly before the recorded expiry minus
the 300-second safety buffer returns the same cached token value with
zero exchange calls and leaves the cache unchanged; and a cache entry is
valid exactly when `now < expires - 300`. -/
theorem cached_token_reused_before_buffer (st : AuthState)
    (now₀ now₁ : ℚ) (resp₀ resp₁ : HttpResult) (v : String) (c : CachedToken)
    (h₀ : get_jwt st now₀ resp₀ = ⟨.ok v, some c, 1⟩)
    (h₁ : now₁ < c.expires - 300) :
    c.token = v ∧
    get_jwt { st with cache := some c } now₁ resp₁ = ⟨.ok v, some c, 0⟩ ∧
    ∀ (d : CachedToken) (t : ℚ), is_valid d t = decide (t < d.expires - 300) := by
  have hart : ∃ rt, active_refresh_token st none = .ok rt := by
    unfold get_jwt at h₀
    cases hart : active_refresh_token st none with
    | error e => rw [hart] at h₀; simp at h₀
    | ok rt => exact ⟨rt, rfl⟩
  obtain ⟨rt, hrt⟩ := hart
  have href : refresh now₀ resp₀ true st.cache = ⟨.ok v, some c⟩ := by
    unfold get_jwt at h₀
    rw [hrt] at h₀
    cases hc : st.cache with
    | none =>
      have h2 := h₀
      rw [hc] at h2
      injection h2 with hval hca hcalls
      rw [← hval, ← hca]
    | some c0 =>
      have h2 := h₀
      rw [hc] at h2
      by_cases hv : is_valid c0 now₀
      · simp [hv] at h2
      · simp only [hv, Bool.false_eq_true, if_false, JwtResult.mk.injEq] at h2
        rw [← h2.1, ← h2.2.1]
  have htok : c.token = v := by
    cases resp₀ with
    | transportError m => simp [refresh] at href
    | statusOrJsonError m => simp [refresh] at href
    | ok p =>
      cases hp : p.token with
      | none => simp [refresh, extract_token, hp] at href
      | some tk =>
        rw [show refresh now₀ (.ok p) true st.cache =
            ⟨.ok tk, some ⟨tk, (truthyNum p.claims.expires_at).getD
              ((truthyNum p.claims.exp).getD (now₀ + 3600))⟩⟩ from by
          simp [refresh, extract_token, hp]] at href
        injection href with h1 h2
        injection h1 with h1
        injection h2 with h2
        rw [← h2]
        exact h1
  have hvalid : is_valid c now₁ = true := by
    simp [is_valid, h₁]
  refine ⟨htok, ?_, fun d t => rfl⟩
  unfold get_jwt
  rw [active_refresh_token_cache_irrel, hrt]
  simp [hvalid, htok]

/-- Claim C6, witness: a concrete successful exchange at time 1000
stores a token expiring at 5000; a second call at time 2000 serves it
from the cache without a network call. -/
theorem cached_token_reused_before_buffer_witness :
    ("jwt-token" : String) = "jwt-token" ∧
    get_jwt ⟨some "abc:def", "https://authentication.api.openbridge.io",
        some ⟨"jwt-token", 5000⟩⟩ 2000 (.transportError "would fail") =
      ⟨.ok "jwt-token", some ⟨"jwt-token", 5000⟩, 0⟩ ∧
    ∀ (d : CachedToken) (t : ℚ), is_valid d t = decide (t < d.expires - 300) := by
  have h := cached_token_reused_before_buffer
    ⟨some "abc:def", "https://authentication.api.openbridge.io", none⟩
    1000 2000 (.ok ⟨some "jwt-token", ⟨some 5000, none⟩⟩)
    (.transportError "would fail") "jwt-token" ⟨"jwt-token", 5000⟩
    (by rfl) (by norm_num)
  exact ⟨rfl, h.2.1, h.2.2⟩

/-- Claim C7, counterexample: the claimed priority order fails on both
exchange paths the claim cites. On the simple exchanger a present but
zero `expires_at` with `exp = 5000` records expiry `5000` while the
claimed order ("the custom expires_at claim if present") dictates `0` —
Python's `or` chain skips falsy present values. On the provider
exchanger a claim set carrying only `exp = 5000` records epoch `0`, not
`5000` — that path consults no `exp` fallback and applies no one-hour
default. -/
theorem expiry_priority_counterexample :
    extract_token 100 ⟨some "t", ⟨some 0, some 5000⟩⟩ true none =
      ⟨.ok "t", some ⟨"t", 5000⟩⟩ ∧
    specExpiry ⟨some 0, some 5000⟩ 100 = 0 ∧
    refresh_jwt_token ⟨some "t", ⟨none, some 5000⟩⟩ = .ok ⟨"t", 0⟩ ∧
    specExpiry ⟨none, some 5000⟩ 100 = 5000 := ⟨rfl, rfl, rfl, rfl⟩

/-- Claim C7, amended: on the simple exchanger (`_extract_token`), the
expiry recorded on a successful exchange is the decoded `expires_at`
claim when present and truthy (nonzero), else the decoded `exp` claim
when present and truthy, else one hour past the current time (also when
the claims are present but zero); on the provider exchanger
(`_refresh_jwt_token`), the recorded expiry is the `expires_at` claim
alone — the `exp` claim is never consulted and absence yields epoch 0,
not a one-hour default. -/
theorem expiry_selection_priority (now : ℚ) (tk : String)
    (claims : JwtClaims) (oldCache : Option CachedToken) :
    (∀ v, claims.expires_at = some v → v ≠ 0 →
      extract_token now ⟨some tk, claims⟩ true oldCache =
        ⟨.ok tk, some ⟨tk, v⟩⟩) ∧
    (∀ v, (claims.expires_at = none ∨ claims.expires_at = some 0) →
      claims.exp = some v → v ≠ 0 →
      extract_token now ⟨some tk, claims⟩ true oldCache =
        ⟨.ok tk, some ⟨tk, v⟩⟩) ∧
    ((claims.expires_at = none ∨ claims.expires_at = some 0) →
      (claims.exp = none ∨ claims.exp = some 0) →
      extract_token now ⟨some tk, claims⟩ true oldCache =
        ⟨.ok tk, some ⟨tk, now + 3600⟩⟩) ∧
    (∀ v, tk ≠ "" → claims.expires_at = some v →
      refresh_jwt_token ⟨some tk, claims⟩ = .ok ⟨tk, v⟩) ∧
    (tk ≠ "" → claims.expires_at = none →
      refresh_jwt_token ⟨some tk, claims⟩ = .ok ⟨tk, 0⟩) := by
  refine ⟨?_, ?_, ?_, ?_, ?_⟩
  · intro v hv hne
    simp [extract_token, truthyNum, hv, hne]
  · intro v hea hv hne
    rcases hea with h | h <;> simp [extract_token, truthyNum, h, hv, hne]
  · intro hea hex
    rcases hea with h | h <;> rcases hex with h2 | h2 <;>
      simp [extract_token, truthyNum, h, h2]
  · intro v htk hv
    simp [refresh_jwt_token, htk, hv]
  · intro htk hv
    simp [refresh_jwt_token, htk, hv]

/-- Claim C7, witness for the amended theorem: on the same decoded
claims (no `expires_at`, `exp = 7200`) the simple exchanger records
`7200` while the provider exchanger records epoch `0`. -/
theorem expiry_selection_priority_witness :
    extract_token 300 ⟨some "tok", ⟨none, some 7200⟩⟩ true none =
      ⟨.ok "tok", some ⟨"tok", 7200⟩⟩ ∧
    refresh_jwt_token ⟨some "tok", ⟨none, some 7200⟩⟩ = .ok ⟨"tok", 0⟩ :=
  ⟨(expiry_selection_priority 300 "tok" ⟨none, some 7200⟩ none).2.1
      7200 (Or.inl rfl) rfl (by norm_num),
   (expiry_selection_priority 300 "tok" ⟨none, some 7200⟩ none).2.2.2.2
      (by decide) rfl⟩

/-- Claim C4, counterexample: a failing HTTP status whose exception text
happens to contain "not available" is misclassified by
`get_auth_headers` as the missing-credential case, so the call returns
empty headers (after one attempted exchange) instead of raising. -/
theorem exchange_failure_swallowed_counterexample :
    exchangeFailed
      (.statusOrJsonError "503 Server Error: token not available for url") = true ∧
    get_auth_headers none
        ⟨some "abc:def", "https://authentication.api.openbridge.io", none⟩ 0
        (.statusOrJsonError "503 Server Error: token not available for url") =
      ⟨.ok [], none, 1⟩ := ⟨rfl, rfl⟩

/-- Claim C4, amended: with a configured refresh credential, no caller
token, and a failed exchange (transport error, failing status or
unparseable body, or missing token field), `get_auth_headers` raises
`AuthenticationError` whose message contains the auth endpoint URL
(`auth_base_url`/auth/api/ref) and the likely causes — except when the
underlying failure's own exception text contains the substring
"not available", which is misclassified as the missing-credential case
and yields empty headers instead. -/
theorem exchange_failure_raises_detailed (st : AuthState) (now : ℚ)
    (resp : HttpResult) (rt : String)
    (hrt : st.refresh_token = some rt) (hrtne : rt ≠ "")
    (hmiss : ∀ c0, st.cache = some c0 → is_valid c0 now = false)
    (hfail : exchangeFailed resp = true)
    (hnotavail : ∀ m, resp = .statusOrJsonError m →
      strContains ("Failed to convert refresh token to JWT: " ++ m)
        "not available" = false) :
    get_auth_headers none st now resp =
      ⟨.error (.authenticationError (conversionFailureMsg st)), st.cache, 1⟩ ∧
    strContains (conversionFailureMsg st) (auth_path st) = true ∧
    strContains (conversionFailureMsg st) "Possible causes" = true := by
  have h1 : strContains (conversionFailureMsg st) (auth_path st) = true := by
    unfold conversionFailureMsg
    exact strContains_append_right _ _
  have h2 : strContains (conversionFailureMsg st) "Possible causes" = true := by
    unfold conversionFailureMsg
    exact strContains_append_left _ _ _ (by rfl)
  have hart : active_refresh_token st none = .ok rt := by
    simp [active_refresh_token, hrt, hrtne]
  have hjwt : get_jwt st now resp =
      ⟨(refresh now resp true st.cache).value,
       (refresh now resp true st.cache).cache, 1⟩ := by
    unfold get_jwt
    rw [hart]
    cases hc : st.cache with
    | none => rfl
    | some c0 => simp [hmiss c0 hc]
  have hmsgfact : ∃ m, (refresh now resp true st.cache).value =
      .error (.authenticationError m) ∧
      strContains m "not available" = false ∧
      (refresh now resp true st.cache).cache = st.cache := by
    cases resp with
    | transportError m2 => exact ⟨_, rfl, by rfl, rfl⟩
    | statusOrJsonError m2 => exact ⟨_, rfl, hnotavail m2 rfl, rfl⟩
    | ok p =>
      cases hp : p.token with
      | none =>
        refine ⟨"Openbridge auth response did not include a token",
          ?_, by rfl, ?_⟩ <;> simp [refresh, extract_token, hp]
      | some tk => simp [exchangeFailed, hp] at hfail
  obtain ⟨m, hmv, hnm, hmc⟩ := hmsgfact
  refine ⟨?_, h1, h2⟩
  unfold get_auth_headers get_auth_headers.fallthrough get_headers
  rw [hjwt]
  simp only [hmv, hmc, Except.map, hnm, Bool.false_eq_true, if_false]

/-- Claim C4, witness: a concrete transport failure surfaces as a
detailed `AuthenticationError` naming the contacted endpoint. -/
theorem exchange_failure_raises_detailed_witness :
    get_auth_headers none
        ⟨some "abc:def", "https://authentication.api.openbridge.io", none⟩ 0
        (.transportError "connection refused") =
      ⟨.error (.authenticationError (conversionFailureMsg
          ⟨some "abc:def", "https://authentication.api.openbridge.io", none⟩)),
       none, 1⟩ ∧
    strContains (conversionFailureMsg
        ⟨some "abc:def", "https://authentication.api.openbridge.io", none⟩)
      (auth_path
        ⟨some "abc:def", "https://authentication.api.openbridge.io", none⟩) = true ∧
    strContains (conversionFailureMsg
        ⟨some "abc:def", "https://authentication.api.openbridge.io", none⟩)
      "Possible causes" = true :=
  exchange_failure_raises_detailed
    ⟨some "abc:def", "https://authentication.api.openbridge.io", none⟩ 0
    (.transportError "connection refused") "abc:def" rfl (by decide)
    (fun c0 h => by simp at h) rfl
    (fun m h => by simp at h)

/-- Claim C2, amended: after `_inject_headers` runs, the only header
whose name contains "authorization" (case-insensitively) is the
platform `Authorization` value obtained from the auth manager, and it is
present if and only if the lowercased target host contains the substring
`"openbridge.io"` (not: if and only if the host belongs to the platform
domain) — every pre-existing authorization-named header is removed in
both cases. -/
theorem inject_headers_scrub_and_scope (media : Option MediaInfo)
    (method url : String) (headers0 amHeaders : List (String × String)) :
    (strContains (strLower (urlparse url).netloc) "openbridge.io" = false →
      (inject_headers media method url headers0 amHeaders).filter authNamed
        = []) ∧
    (strContains (strLower (urlparse url).netloc) "openbridge.io" = true →
      (inject_headers media method url headers0 amHeaders).filter authNamed
        = [("Authorization", dictGetD amHeaders "Authorization" "")]) := by
  have hscrub : (scrubHeaders (mediaNegotiate media method headers0)).filter
      authNamed = [] := scrubHeaders_filter_nil _
  constructor
  · intro hhost
    unfold inject_headers
    simp only [hhost, Bool.false_eq_true, if_false]
    split
    · rw [filter_authNamed_headerSet, hscrub]
      rfl
    · exact hscrub
  · intro hhost
    unfold inject_headers
    simp only [hhost, if_true]
    have h3eq : (headerSet (scrubHeaders (mediaNegotiate media method headers0))
        "Authorization" (dictGetD amHeaders "Authorization" "")).filter authNamed =
        [("Authorization", dictGetD amHeaders "Authorization" "")] := by
      rw [filter_authNamed_headerSet, hscrub]
      rfl
    split
    · rw [filter_authNamed_headerSet, h3eq]
      rfl
    · exact h3eq

/-- Claim C2, witness for the amended theorem on a platform host with a
polluted inbound Authorization header. -/
theorem inject_headers_scrub_and_scope_witness :
    (inject_headers none "GET" "https://service.api.openbridge.io/sub"
        [("authorization", "Bearer framework-leak")]
        [("Authorization", "Bearer platform-jwt")]).filter authNamed =
      [("Authorization", "Bearer platform-jwt")] :=
  (inject_headers_scrub_and_scope none "GET"
      "https://service.api.openbridge.io/sub"
      [("authorization", "Bearer framework-leak")]
      [("Authorization", "Bearer platform-jwt")]).2 rfl

/-- Claim C2, counterexample: the substring check attaches the platform
credential to `openbridge.io.attacker.example`, a third-party host that
does not belong to the platform's domain. -/
theorem inject_headers_substring_counterexample :
    specPlatformDomain
      (strLower (urlparse "https://openbridge.io.attacker.example/a").netloc)
      = false ∧
    inject_headers none "GET" "https://openbridge.io.attacker.example/a" []
        [("Authorization", "Bearer platform-jwt")] =
      [("Authorization", "Bearer platform-jwt"),
       ("Accept", "application/json")] := ⟨rfl, rfl⟩

/-- Claim C5, counterexample: with base URL `"x"` (which has no host)
the host-mismatch rejection is skipped — the code guards only when both
hosts are nonempty — so a candidate on a foreign https host is returned
although its host differs from the base's. -/
theorem safe_pagination_url_empty_host_counterexample :
    (urlparse (urljoin "x" "https://evil.com/x")).netloc ≠
      (urlparse "x").netloc ∧
    safe_pagination_url (some "https://evil.com/x") "x" =
      some "https://evil.com/x" := by
  exact ⟨by decide, rfl⟩

/-- Claim C5, amended: `safe_pagination_url` returns `none` for an
absent or empty candidate; otherwise it returns `some u` exactly when
`u` is the candidate resolved against the base, the resolved scheme is
https, and the resolved host and the base host are equal or at least one
of them is empty (the host-mismatch rejection fires only when both are
nonempty and differ). -/
theorem safe_pagination_url_characterization (next_url : Option String)
    (base_url : String) :
    safe_pagination_url none base_url = none ∧
    safe_pagination_url (some "") base_url = none ∧
    ∀ u, safe_pagination_url next_url base_url = some u ↔
      ∃ nu, next_url = some nu ∧ nu ≠ "" ∧ u = urljoin base_url nu ∧
        (urlparse u).scheme = "https" ∧
        ((urlparse u).netloc = "" ∨ (urlparse base_url).netloc = "" ∨
          (urlparse u).netloc = (urlparse base_url).netloc) := by
  refine ⟨rfl, rfl, fun u => ⟨?_, ?_⟩⟩
  · intro h
    cases next_url with
    | none => simp [safe_pagination_url] at h
    | some nu =>
      simp only [safe_pagination_url] at h
      by_cases h0 : nu = ""
      · rw [if_pos h0] at h
        exact absurd h (by simp)
      · rw [if_neg h0] at h
        by_cases h1 : validate_url (urljoin base_url nu) ["https"] = true
        · rw [if_neg (not_not_intro h1)] at h
          by_cases h2 : (urlparse (urljoin base_url nu)).netloc ≠ "" ∧
              (urlparse base_url).netloc ≠ "" ∧
              (urlparse (urljoin base_url nu)).netloc ≠ (urlparse base_url).netloc
          · rw [if_pos h2] at h
            exact absurd h (by simp)
          · rw [if_neg h2] at h
            injection h with h
            subst h
            refine ⟨nu, rfl, h0, rfl, ?_, ?_⟩
            · simpa [validate_url, List.contains] using h1
            · by_cases ha : (urlparse (urljoin base_url nu)).netloc = ""
              · exact Or.inl ha
              · by_cases hb : (urlparse base_url).netloc = ""
                · exact Or.inr (Or.inl hb)
                · refine Or.inr (Or.inr ?_)
                  by_contra hne
                  exact h2 ⟨ha, hb, hne⟩
        · rw [if_pos h1] at h
          exact absurd h (by simp)
  · rintro ⟨nu, rfl, hne, rfl, hscheme, hhost⟩
    simp only [safe_pagination_url]
    rw [if_neg hne]
    have hval : validate_url (urljoin base_url nu) ["https"] = true := by
      simp [validate_url, List.contains, hscheme]
    rw [if_neg (not_not_intro hval)]
    have hcond : ¬((urlparse (urljoin base_url nu)).netloc ≠ "" ∧
        (urlparse base_url).netloc ≠ "" ∧
        (urlparse (urljoin base_url nu)).netloc ≠ (urlparse base_url).netloc) := by
      rcases hhost with h | h | h
      · exact fun hc => hc.1 h
      · exact fun hc => hc.2.1 h
      · exact fun hc => hc.2.2 h
    rw [if_neg hcond]

/-- Claim C5, witness: the spec's positive example — a same-host https
candidate resolves against the base and is returned unchanged. -/
theorem safe_pagination_url_characterization_witness :
    safe_pagination_url (some "https://good.api.io/x?page=2")
      "https://good.api.io/y" = some "https://good.api.io/x?page=2" :=
  ((safe_pagination_url_characterization (some "https://good.api.io/x?page=2")
      "https://good.api.io/y").2.2 "https://good.api.io/x?page=2").mpr
    ⟨"https://good.api.io/x?page=2", rfl, by decide, by rfl, by rfl,
     Or.inr (Or.inr (by rfl))⟩

end Openbridge
